import Mathlib

/-!
Verification development for the Claude-Telegram-Bridge repository.

The repository consists of three Python scripts:
  * `telegram_bridge.py`       — the long-running Chat Relay Loop;
  * `hooks/telegram_approver.py` — the per-tool-call Approval Request Service;
  * `hooks/response_sender.py` — the per-turn Response Publisher.

The three processes coordinate exclusively through small files in a shared
data directory (the Shared Durable State Store).  We embed that store as a
record of the relevant files, embed each script's `main` as a pure function
from its configuration, its environment (stdin parse result, transport
replies, transcript extraction result, button-press interleavings) and the
store to a result record carrying the exit code, the emitted hook decision,
the trace of transport calls and the updated store.

String operations are modelled on `String.data` (lists of characters) so
that every definition reduces in the kernel: Python slicing and `len` are
character based, exactly like `List.take` / `List.length` on `String.data`.
-/

/-- Python `str.strip()`: drop whitespace from both ends.
(`Char.isWhitespace` covers space, tab, CR, LF — the only whitespace that
can occur in the short tokens this program strips.) -/
def pyStrip (s : String) : String :=
  ⟨((s.data.dropWhile Char.isWhitespace).reverse.dropWhile Char.isWhitespace).reverse⟩

/-- Python `s[:n]`: the first `n` characters. -/
def pySlice (s : String) (n : Nat) : String := ⟨s.data.take n⟩

/-- Python `int(s)` succeeds on the strings this program stores (decimal
digit strings, the rendered Telegram message ids). -/
def isNatStr (s : String) : Bool := !s.data.isEmpty && s.data.all Char.isDigit

/-- Helper for `callback_data.split(":", 1)` (split at the first colon):
`none` when the list holds no `':'` (Python `":" not in s`), otherwise the
parts before and after the first `':'`. -/
def splitColonAux : List Char → Option (List Char × List Char)
  | [] => none
  | c :: cs =>
    if c = ':' then some ([], cs)
    else
      match splitColonAux cs with
      | none => none
      | some (a, b) => some (c :: a, b)

/-- Python `callback_data.split(":", 1)` combined with the `":" in callback_data`
guard of `handle_callback`. -/
def splitFirstColon (s : String) : Option (String × String) :=
  match splitColonAux s.data with
  | none => none
  | some (a, b) => some (⟨a⟩, ⟨b⟩)

/-- A directory of small files: file name to content; `none` = file absent. -/
def FileDir : Type := String → Option String

/-- Writing (or deleting, with `none`) one file of a directory. -/
def fsUpdate (d : FileDir) (k : String) (v : Option String) : FileDir :=
  fun x => if x = k then v else d x

/-- The Shared Durable State Store: the files under the bridge data
directory that the three scripts exchange. -/
structure Store where
  /-- contents of `data/callbacks/` — the Decision Records -/
  callbacks : FileDir
  /-- content of `thinking_msg_id.txt`, the Thinking Indicator marker -/
  thinking : Option String
  /-- content of `last_sent_text.txt`, the Last-Published-Response Key -/
  lastSent : Option String
  /-- content of `plan_mode_state.txt`, the Plan-Mode Flag -/
  planFile : Option String
  /-- presence of `bridge_running.txt`, the Bridge Liveness Marker -/
  bridgeRunning : Bool

/-- The Decision Record file name for a request id
(`f"{request_id}.response"`). -/
def responseFile (rid : String) : String := rid ++ ".response"

/-- Embedding of `telegram_bridge.handle_callback`: a payload without a colon is dropped;
otherwise the text after the first colon is written (overwriting) into the
file named by the text before it. -/
def handle_callback (cb : FileDir) (callback_data : String) : FileDir :=
  match splitFirstColon callback_data with
  | none => cb
  | some (request_id, decision) =>
    fsUpdate cb (responseFile request_id) (some decision)

/-- One interleaving slot of the concurrent relay loop: during a poll
iteration the relay may process one button-press payload via
`handle_callback`. -/
def relay_slot (cb : FileDir) : Option String → FileDir
  | some payload => handle_callback cb payload
  | none => cb

/-- Embedding of `telegram_approver.poll_for_response`: one list entry per 0.5 s poll
iteration (the list length plays the role of `timeout_seconds / 0.5`).  To
model the concurrent relay loop, each entry optionally carries a button-press
payload that the relay processes (via `handle_callback`) before the poller's
existence check of that iteration.  When the poller sees the Decision Record
it reads the stripped content and deletes the file; when the fuel runs out it
returns `none` (timeout). -/
def poll_for_response (rid : String) : List (Option String) → FileDir →
    Option String × FileDir
  | [], cb => (none, cb)
  | a :: rest, cb =>
    let cb1 := relay_slot cb a
    match cb1 (responseFile rid) with
    | some content => (some (pyStrip content), fsUpdate cb1 (responseFile rid) none)
    | none => poll_for_response rid rest cb1

/-! ## Approval Request Service (`hooks/telegram_approver.py`) -/

/-- One sequential single-character `str.replace` pass (Python `.replace`
with a one-character pattern substitutes every occurrence of that
character). -/
def replaceChar (l : List Char) (c : Char) (r : List Char) : List Char :=
  l.flatMap (fun x => if x = c then r else [x])

/-- Embedding of `telegram_approver.escape_html`: the three sequential replaces
`& → &amp;`, `< → &lt;`, `> → &gt;`. -/
def escape_html (s : String) : String :=
  ⟨replaceChar (replaceChar (replaceChar s.data '&' "&amp;".data)
      '<' "&lt;".data) '>' "&gt;".data⟩

/-- Embedding of `delete_thinking_message` (defined identically in both hook scripts):
if the marker file exists, read its stripped content, remove the file, and
when the content is a non-empty (numeric) message id, post a best-effort
remote `deleteMessage`.  Returns the new marker-file content (always
`none` when the file existed) and the list of remote delete attempts.
(`int(msg_id)` parses exactly the numeric contents; a parse failure is
swallowed by the surrounding `except`, after the file is already removed.) -/
def delete_thinking (thinking : Option String) : Option String × List String :=
  match thinking with
  | none => (none, [])
  | some content =>
    let msg_id := pyStrip content
    (none, if isNatStr msg_id then [msg_id] else [])

/-- The JSON object a hook prints to stdout
(`make_decision(behavior, message)`). -/
structure Decision where
  behavior : String
  message : Option String
deriving DecidableEq

/-- The recognized configuration options (each `none` when the key is
missing, so that `config.get(key, default)` is `Option.getD`). -/
structure Config where
  auto_approve : Option (List String)
  auto_deny : Option (List String)
  timeout_seconds : Option Nat
deriving DecidableEq

/-- The fields of the stdin JSON payload that the approver reads
(`hook_input.get("tool_name", "Unknown")`, `hook_input.get("transcript_path")`). -/
structure HookInput where
  tool_name : Option String
  transcript_path : Option String
deriving DecidableEq

/-- The approver's environment: everything `main` obtains from outside the
Shared Durable State Store.  `claudeText` is the result of
`get_latest_claude_text(transcript_path)` on the current transcript file;
`request_id` is the fresh `str(uuid.uuid4())[:8]`; `details` is the rendered
`format_tool_details(tool_name, tool_input)` text; `promptMsgId` is the
transport's reply (message id) to the prompt publish, `none` on transport
failure; `arrivals` are the button-press payloads the relay loop processes
while the approver polls (one slot per poll iteration). -/
structure ApproverEnv where
  claudeText : Option String
  request_id : String
  details : String
  promptMsgId : Option Nat
  arrivals : List (Option String)

/-- Lines 269–290 of `telegram_approver.main`: publish the latest assistant
text unless its 200-character fingerprint matches the stored
Last-Published-Response Key; returns the new key-file content and the list
of publish calls.  (`if claude_text and len(claude_text.strip()) > 0`
collapses to "the stripped text is non-empty".) -/
def approver_prepublish (claudeText : Option String) (lastSent : Option String) :
    Option String × List String :=
  match claudeText with
  | none => (lastSent, [])
  | some t =>
    if pyStrip t = "" then (lastSent, [])
    else
      let text_key := pyStrip (pySlice t 200)
      let already_sent : Bool :=
        match lastSent with
        | some s => pyStrip s == text_key
        | none => false
      if already_sent then (lastSent, [])
      else
        let text_preview := if t.length > 2000 then pySlice t 2000 else t
        (some text_key, ["🤖 Claude:\n\n" ++ escape_html text_preview])

/-- The prompt the approver publishes with the Allow/Deny keyboard. -/
def promptMessage (tool_name : String) (details : String) : String :=
  "🔔 <b>Permission Request</b>\n\n<b>Tool:</b> " ++ tool_name ++ "\n\n" ++ details

/-- Result of one approver run: the decision printed to stdout (`none` when
the process exits before printing one), the exit code, the texts passed to
`send_telegram_message`, the remote `deleteMessage` attempts, whether
`poll_for_response` was entered, and the files the approver rewrote. -/
structure ApproverResult where
  decision : Option Decision
  exitCode : Nat
  sent : List String
  remoteDeleted : List String
  polled : Bool
  callbacks : FileDir
  thinking : Option String
  lastSent : Option String

/-- Embedding of `telegram_approver.main` on the three store files it touches.
`cfg? = none` models a missing `config.json` (`load_config` exits 2);
`stdin? = none` models unparseable stdin JSON (exit 2).  The bridge
liveness marker is deliberately not an argument: the script never reads
`bridge_running.txt`. -/
def approver_core (cfg? : Option Config) (stdin? : Option HookInput)
    (env : ApproverEnv) (cb : FileDir) (thinking lastSent : Option String) :
    ApproverResult :=
  match cfg? with
  | none => ⟨none, 2, [], [], false, cb, thinking, lastSent⟩
  | some config =>
    match stdin? with
    | none => ⟨none, 2, [], [], false, cb, thinking, lastSent⟩
    | some hi =>
      let tool_name := hi.tool_name.getD "Unknown"
      let td := delete_thinking thinking
      let pp := approver_prepublish env.claudeText lastSent
      let auto_approve := config.auto_approve.getD ["Read", "Glob", "Grep"]
      if tool_name ∈ auto_approve then
        ⟨some ⟨"allow", none⟩, 0, pp.2, td.2, false, cb, td.1, pp.1⟩
      else
        let auto_deny := config.auto_deny.getD []
        if tool_name ∈ auto_deny then
          ⟨some ⟨"deny", some (tool_name ++ " is blocked")⟩, 0,
            pp.2, td.2, false, cb, td.1, pp.1⟩
        else
          let message := promptMessage tool_name env.details
          match env.promptMsgId with
          | none =>
            ⟨some ⟨"deny", some "Failed to send Telegram notification"⟩, 0,
              pp.2 ++ [message], td.2, false, cb, td.1, pp.1⟩
          | some _ =>
            let timeout := config.timeout_seconds.getD 60
            let pr := poll_for_response env.request_id env.arrivals cb
            if pr.1 = some "allow" then
              ⟨some ⟨"allow", none⟩, 0, pp.2 ++ [message, "✅ Allowed"],
                td.2, true, pr.2, td.1, pp.1⟩
            else
              let reason :=
                if pr.1 = some "deny" then "Denied by user"
                else "No response within " ++ toString timeout ++ "s"
              ⟨some ⟨"deny", some reason⟩, 0,
                pp.2 ++ [message, "❌ " ++ reason], td.2, true, pr.2, td.1, pp.1⟩

/-- Embedding of `telegram_approver.main` acting on the whole Shared Durable State Store:
the script reads and writes only the callbacks directory, the
thinking-indicator file and the last-sent file. -/
def approver_main (cfg? : Option Config) (stdin? : Option HookInput)
    (env : ApproverEnv) (st : Store) : ApproverResult × Store :=
  let r := approver_core cfg? stdin? env st.callbacks st.thinking st.lastSent
  (r, { st with callbacks := r.callbacks, thinking := r.thinking,
                lastSent := r.lastSent })

/-! ## Response Publisher (`hooks/response_sender.py`) -/

/-- The field of the stdin JSON payload that the response sender reads
(`hook_input.get("transcript_path")`; `if not transcript_path` also rejects
the empty string). -/
structure SenderInput where
  transcript_path : Option String
deriving DecidableEq

/-- Result of one response-sender run: exit code, texts passed to
`send_telegram` (which itself truncates at 4000 characters and converts
markdown before posting), remote `deleteMessage` attempts, and the new
thinking-marker content. -/
structure SenderResult where
  exitCode : Nat
  sent : List String
  remoteDeleted : List String
  thinking : Option String

/-- Embedding of `response_sender.main` on the store fields it touches.  `cfg? = none`
models a missing `config.json` (this script's `load_config` exits 0);
`stdin? = none` models unparseable stdin JSON (silent exit 0);
`response` is the result of `get_latest_assistant_message(transcript_path)`
on the current transcript file.  The stored Last-Published-Response Key is
not an argument: the script never reads `last_sent_text.txt`. -/
def response_sender_core (cfg? : Option Config) (stdin? : Option SenderInput)
    (response : Option String) (bridgeRunning : Bool)
    (thinking : Option String) : SenderResult :=
  match cfg? with
  | none => ⟨0, [], [], thinking⟩
  | some _config =>
    if !bridgeRunning then ⟨0, [], [], thinking⟩
    else
      match stdin? with
      | none => ⟨0, [], [], thinking⟩
      | some hi =>
        match hi.transcript_path with
        | none => ⟨0, [], [], thinking⟩
        | some tp =>
          if tp = "" then ⟨0, [], [], thinking⟩
          else
            match response with
            | none => ⟨0, [], [], thinking⟩
            | some r =>
              if pyStrip r = "" then ⟨0, [], [], thinking⟩
              else
                let td := delete_thinking thinking
                ⟨0, ["ðŸ¤– Claude:\n\n" ++ r], td.2, td.1⟩

/-- Embedding of `response_sender.main` acting on the whole Shared Durable State Store:
the script reads the liveness marker and the thinking-indicator file and
rewrites only the latter. -/
def response_sender_main (cfg? : Option Config) (stdin? : Option SenderInput)
    (response : Option String) (st : Store) : SenderResult × Store :=
  let r := response_sender_core cfg? stdin? response st.bridgeRunning st.thinking
  (r, { st with thinking := r.thinking })

/-! ## Chat Relay Loop (`telegram_bridge.py`) -/

/-- A `callback_query` event as the loop sees it: the query id (used only
for the best-effort acknowledgement), `callback.get("data", "")`, and the
sender id carried by the event — present in every Telegram callback query
but never read by the loop. -/
structure Callback where
  id : String
  data : Option String
  fromId : String
deriving DecidableEq

/-- A `message` event: its text (absent for non-text messages) and
`str(msg["from"]["id"])`. -/
structure Message where
  text : Option String
  fromId : String
deriving DecidableEq

/-- One element of the `getUpdates` result. -/
structure Update where
  update_id : Nat
  callback : Option Callback
  message : Option Message
deriving DecidableEq

/-- The `/help` reply text (sent with `parse_mode: HTML`). -/
def help_text : String :=
  "🤖 <b>Claude Telegram Bridge</b>\n\n<b>Commands:</b>\n/help - Show this help\n/plan - Toggle plan mode on/off\n/stop - Stop the bridge\n\n<b>How to use:</b>\n• Send any text → types into Claude Code\n• Tap Allow/Deny buttons → responds to permission requests\n\n<b>Limitations:</b>\n• Claude Code terminal must be focused\n• Plan mode may desync if toggled via keyboard\n• One chat controls whichever terminal is focused"

/-- Reading the Plan-Mode Flag as the `/plan` handler does:
`f.read().strip() == "1"` when the file exists, `False` otherwise (or on
any read error). -/
def parse_plan (planFile : Option String) : Bool :=
  match planFile with
  | some c => pyStrip c == "1"
  | none => false

/-- Python `text.startswith("/")`. -/
def startsWithSlash (s : String) : Bool :=
  match s.data with
  | [] => false
  | c :: _ => c = '/'

/-- Result of processing one update in the loop body: the advanced cursor,
the updated store, the texts passed to `send_telegram` (or posted directly,
for `/help`), the acknowledged callback-query ids, the texts forwarded to
`type_to_claude`, the keyboard gestures emitted, and whether the loop
returned (`/stop`).  `remoteDeleted` records remote `deleteMessage`
attempts; `telegram_bridge.py` contains no such call, so it is `[]` on
every path. -/
structure StepResult where
  offset : Nat
  store : Store
  sent : List String
  acks : List String
  typed : List String
  gestures : List String
  remoteDeleted : List String
  stopped : Bool

/-- One iteration of the `for update in updates` body of
`telegram_bridge.main`.  `chatId` is `config["telegram_chat_id"]`;
`thinkingMsgId` is the transport's reply to `send_thinking`'s publish
(`none` on transport failure; the marker file is written only for a truthy
id, so a `0` reply is also not stored). -/
def bridge_step (chatId : String) (thinkingMsgId : Option Nat) (st : Store)
    (u : Update) : StepResult :=
  let offset1 := u.update_id + 1
  match u.callback with
  | some cbq =>
    { offset := offset1,
      store := { st with callbacks := handle_callback st.callbacks (cbq.data.getD "") },
      sent := [], acks := [cbq.id], typed := [], gestures := [],
      remoteDeleted := [], stopped := false }
  | none =>
    match u.message with
    | none => ⟨offset1, st, [], [], [], [], [], false⟩
    | some msg =>
      match msg.text with
      | none => ⟨offset1, st, [], [], [], [], [], false⟩
      | some text =>
        if msg.fromId ≠ chatId then ⟨offset1, st, [], [], [], [], [], false⟩
        else if text = "/stop" then
          ⟨offset1, { st with bridgeRunning := false },
            ["🛑 Bridge stopped"], [], [], [], [], true⟩
        else if text = "/plan" then
          let plan_on := !(parse_plan st.planFile)
          let status := if plan_on then "📋 Plan mode: ON" else "⚡ Plan mode: OFF"
          ⟨offset1, { st with planFile := some (if plan_on then "1" else "0") },
            [status], [], [], ["shift+tab", "shift+tab"], [], false⟩
        else if text = "/help" then
          ⟨offset1, st, [help_text], [], [], [], [], false⟩
        else if startsWithSlash text then
          ⟨offset1, st, [], [], [], [], [], false⟩
        else
          let thinking1 :=
            match thinkingMsgId with
            | some n => if n ≠ 0 then some (toString n) else st.thinking
            | none => st.thinking
          ⟨offset1, { st with thinking := thinking1 },
            ["💭 Thinking..."], [], [text], [], [], false⟩

/-! ## Concrete inputs used by witnesses and counterexamples -/

/-- A configuration with no optional key set (all defaults apply). -/
def cfgEmpty : Config := ⟨none, none, none⟩

/-- An empty directory. -/
def dirEmpty : FileDir := fun _ => none

/-- A store whose Bridge Liveness Marker is absent. -/
def stNoBridge : Store := ⟨dirEmpty, none, none, none, false⟩

/-- A store whose Bridge Liveness Marker is present. -/
def stRunning : Store := ⟨dirEmpty, none, none, none, true⟩

/-- A store holding a stale Thinking Indicator for remote message 42. -/
def stStale : Store := ⟨dirEmpty, some "42", none, none, true⟩

/-- A store whose Last-Published-Response Key is `"hello"`. -/
def stDup : Store := ⟨dirEmpty, none, some "hello", none, true⟩

/-- A stdin payload requesting the `Bash` tool. -/
def hookBash : HookInput := ⟨some "Bash", some "/tmp/tr.jsonl"⟩

/-- An approver environment where the prompt publish succeeds and one empty
poll iteration elapses. -/
def envPoll : ApproverEnv := ⟨none, "ab12", "details", some 5, [none]⟩

/-- An approver environment where a deny button press arrives during the
first poll iteration. -/
def envDeny : ApproverEnv := ⟨none, "ab12", "details", some 5, [some "ab12:deny"]⟩

/-- An approver environment where the prompt publish fails (no message id). -/
def envNoSend : ApproverEnv := ⟨none, "ab12", "details", none, []⟩

/-! ## Helper lemmas -/

lemma fsUpdate_self (d : FileDir) (k : String) (v : Option String) :
    fsUpdate d k v k = v := by
  simp [fsUpdate]

lemma fsUpdate_other (d : FileDir) (k : String) (v : Option String)
    (x : String) (h : x ≠ k) : fsUpdate d k v x = d x := by
  simp [fsUpdate, h]

/-- A poll run that returns a decision leaves the Decision Record absent. -/
lemma poll_consumes (rid d : String) :
    ∀ (arrivals : List (Option String)) (cb : FileDir),
      (poll_for_response rid arrivals cb).1 = some d →
      (poll_for_response rid arrivals cb).2 (responseFile rid) = none := by
  intro arrivals
  induction arrivals with
  | nil =>
    intro cb h
    simp [poll_for_response] at h
  | cons a rest ih =>
    intro cb h
    simp only [poll_for_response] at h ⊢
    cases hc : relay_slot cb a (responseFile rid) with
    | some content =>
      simp only [hc] at h ⊢
      exact fsUpdate_self _ _ _
    | none =>
      simp only [hc] at h ⊢
      exact ih _ h

/-- Polling for an absent record with no further button presses times out
and leaves the directory unchanged. -/
lemma poll_absent (rid : String) (cb : FileDir)
    (h : cb (responseFile rid) = none) :
    ∀ n, poll_for_response rid (List.replicate n none) cb = (none, cb) := by
  intro n
  induction n with
  | zero => simp [poll_for_response]
  | succ m ih =>
    simp only [List.replicate, poll_for_response, relay_slot, h, ih]

/-- Processing a `/plan` message from the authorized chat flips the
persisted flag and publishes the matching status notice. -/
lemma bridge_plan_step (chatId : String) (tmi : Option Nat) (st : Store)
    (uid : Nat) :
    bridge_step chatId tmi st ⟨uid, none, some ⟨some "/plan", chatId⟩⟩
      = ⟨uid + 1,
         { st with planFile := some (if !(parse_plan st.planFile) then "1" else "0") },
         [if !(parse_plan st.planFile) then "📋 Plan mode: ON"
          else "⚡ Plan mode: OFF"],
         [], [], ["shift+tab", "shift+tab"], [], false⟩ := by
  simp [bridge_step]

/-! ## C1 — liveness marker and the approval service -/

/-- C1, counterexample.  The claim says that with the Bridge Liveness
Marker absent the Approval Request Service decides from the static lists
alone, "without polling for a Decision Record and without sending any chat
message".  On the code, with the marker absent and tool `Bash` (in neither
default list), the service still enters `poll_for_response` and still sends
chat messages: `telegram_approver.main` never reads `bridge_running.txt`. -/
theorem C1_counterexample :
    stNoBridge.bridgeRunning = false ∧
    (approver_main (some cfgEmpty) (some hookBash) envPoll stNoBridge).1.polled
      = true ∧
    (approver_main (some cfgEmpty) (some hookBash) envPoll stNoBridge).1.sent
      ≠ [] := by
  refine ⟨rfl, ?_, ?_⟩ <;> decide

/-- C1, amended.  The Approval Request Service ignores the Bridge Liveness
Marker entirely: its result (decision, chat messages, polling, file
updates) is identical whether the marker is present or absent, and it
leaves the marker unchanged — so an absent marker does not suppress the
prompt publish or the decision poll; only the static auto lists
short-circuit, by tool name. -/
theorem C1_amended (cfg? : Option Config) (stdin? : Option HookInput)
    (env : ApproverEnv) (st : Store) (b : Bool) :
    (approver_main cfg? stdin? env { st with bridgeRunning := b }).1
      = (approver_main cfg? stdin? env st).1 ∧
    (approver_main cfg? stdin? env st).2.bridgeRunning = st.bridgeRunning :=
  ⟨rfl, rfl⟩

/-! ## C2 — Decision Record uniqueness and consumption -/

/-- C2.  The callbacks directory holds at most one Decision Record per
request id (one file named `{rid}.response`, modelled as one map entry): a
duplicate button press before consumption overwrites that entry and
touches no other file; and the first poll iteration that observes the
record reads its value and deletes the file, so any later poll for the
same id (with no new press) observes absence, not the old value. -/
theorem C2_record_unique_consumed (rid d₁ d₂ p₁ p₂ d : String) (cb : FileDir)
    (arrivals : List (Option String))
    (h₁ : splitFirstColon p₁ = some (rid, d₁))
    (h₂ : splitFirstColon p₂ = some (rid, d₂)) :
    (handle_callback (handle_callback cb p₁) p₂) (responseFile rid) = some d₂ ∧
    (∀ k, k ≠ responseFile rid →
       (handle_callback (handle_callback cb p₁) p₂) k = cb k) ∧
    ((poll_for_response rid arrivals cb).1 = some d →
       (poll_for_response rid arrivals cb).2 (responseFile rid) = none ∧
       ∀ n, poll_for_response rid (List.replicate n none)
              (poll_for_response rid arrivals cb).2
            = (none, (poll_for_response rid arrivals cb).2)) := by
  refine ⟨?_, ?_, ?_⟩
  · simp [handle_callback, h₁, h₂, fsUpdate_self]
  · intro k hk
    simp [handle_callback, h₁, h₂, fsUpdate_other _ _ _ _ hk]
  · intro h
    have hcons := poll_consumes rid d arrivals cb h
    exact ⟨hcons, poll_absent rid _ hcons⟩

/-- C2, witness at request id `ab12` with a duplicate press
(`allow` then `deny`) and a consuming poll. -/
theorem C2_witness :
    splitFirstColon "ab12:allow" = some ("ab12", "allow") ∧
    splitFirstColon "ab12:deny" = some ("ab12", "deny") ∧
    (poll_for_response "ab12" [some "ab12:deny"] (fun _ => none)).1
      = some "deny" ∧
    (handle_callback (handle_callback (fun _ => none) "ab12:allow") "ab12:deny")
        (responseFile "ab12") = some "deny" ∧
    (poll_for_response "ab12" [some "ab12:deny"] (fun _ => none)).2
        (responseFile "ab12") = none := by
  have h := C2_record_unique_consumed "ab12" "allow" "deny" "ab12:allow"
      "ab12:deny" "deny" (fun _ => none) [some "ab12:deny"]
      (by decide) (by decide)
  exact ⟨by decide, by decide, by decide, h.1, (h.2.2 (by decide)).1⟩

/-! ## C3 — decision outcomes of the approval wait -/

/-- C3.  With the tool in neither auto list and the prompt published
(message id obtained): if the poll yields `allow` the service returns
`allow`; if it yields `deny` it returns `deny` with reason
"Denied by user"; if no record appears within the timeout it returns `deny`
with reason "No response within {timeout}s" (which contains the configured
timeout value) — and in each case the full send trace is the pre-publish
messages, the prompt, and exactly one confirmation notice. -/
theorem C3_decision_outcomes (config : Config) (hi : HookInput)
    (env : ApproverEnv) (st : Store) (m : Nat)
    (hA : hi.tool_name.getD "Unknown"
            ∉ config.auto_approve.getD ["Read", "Glob", "Grep"])
    (hD : hi.tool_name.getD "Unknown" ∉ config.auto_deny.getD [])
    (hM : env.promptMsgId = some m) :
    ((poll_for_response env.request_id env.arrivals st.callbacks).1
        = some "allow" →
       (approver_main (some config) (some hi) env st).1.decision
         = some ⟨"allow", none⟩ ∧
       (approver_main (some config) (some hi) env st).1.sent
         = (approver_prepublish env.claudeText st.lastSent).2
             ++ [promptMessage (hi.tool_name.getD "Unknown") env.details,
                 "✅ Allowed"]) ∧
    ((poll_for_response env.request_id env.arrivals st.callbacks).1
        = some "deny" →
       (approver_main (some config) (some hi) env st).1.decision
         = some ⟨"deny", some "Denied by user"⟩ ∧
       (approver_main (some config) (some hi) env st).1.sent
         = (approver_prepublish env.claudeText st.lastSent).2
             ++ [promptMessage (hi.tool_name.getD "Unknown") env.details,
                 "❌ Denied by user"]) ∧
    ((poll_for_response env.request_id env.arrivals st.callbacks).1 = none →
       (approver_main (some config) (some hi) env st).1.decision
         = some ⟨"deny", some ("No response within "
             ++ toString (config.timeout_seconds.getD 60) ++ "s")⟩ ∧
       (approver_main (some config) (some hi) env st).1.sent
         = (approver_prepublish env.claudeText st.lastSent).2
             ++ [promptMessage (hi.tool_name.getD "Unknown") env.details,
                 "❌ " ++ ("No response within "
                   ++ toString (config.timeout_seconds.getD 60) ++ "s")]) := by
  refine ⟨?_, ?_, ?_⟩ <;> intro h <;>
    simp [approver_main, approver_core, hA, hD, hM, h]

/-- C3, witness: a deny press arriving during the poll yields `deny` with
reason "Denied by user" and one confirmation after the prompt. -/
theorem C3_witness :
    (approver_main (some cfgEmpty) (some hookBash) envDeny stNoBridge).1.decision
      = some ⟨"deny", some "Denied by user"⟩ ∧
    (approver_main (some cfgEmpty) (some hookBash) envDeny stNoBridge).1.sent
      = (approver_prepublish envDeny.claudeText stNoBridge.lastSent).2
          ++ [promptMessage "Bash" "details", "❌ Denied by user"] :=
  (C3_decision_outcomes cfgEmpty hookBash envDeny stNoBridge 5
      (by decide) (by decide) rfl).2.1 (by decide)

/-! ## C4 — response deduplication by 200-character fingerprint -/

/-- C4, counterexample.  The claim says both hook processes suppress a
response whose 200-character fingerprint equals the stored
Last-Published-Response Key.  On the code the Response Publisher never
reads `last_sent_text.txt`: with the stored key equal to the response's
fingerprint it still publishes. -/
theorem C4_counterexample :
    stDup.lastSent = some (pyStrip (pySlice "hello" 200)) ∧
    (response_sender_main (some cfgEmpty) (some ⟨some "/tmp/tr.jsonl"⟩)
        (some "hello") stDup).1.sent = ["ðŸ¤– Claude:\n\nhello"] := by
  constructor <;> decide

/-- C4, amended.  The fingerprint deduplication applies only to the
Approval Request Service's pre-prompt publish: there, a response whose
stripped 200-character prefix equals the stored key is not re-published
and the key is unchanged, while a response with a different fingerprint is
published and the key is updated to the new fingerprint.  The Response
Publisher's result is independent of the stored key. -/
theorem C4_amended (t : String) (ls : Option String)
    (cfgS : Option Config) (stdinS : Option SenderInput) (resp : Option String)
    (st : Store) (k : Option String)
    (ht : pyStrip t ≠ "") :
    (∀ s, ls = some s → pyStrip s = pyStrip (pySlice t 200) →
       approver_prepublish (some t) ls = (ls, [])) ∧
    ((∀ s, ls = some s → pyStrip s ≠ pyStrip (pySlice t 200)) →
       approver_prepublish (some t) ls
         = (some (pyStrip (pySlice t 200)),
            ["🤖 Claude:\n\n"
              ++ escape_html (if t.length > 2000 then pySlice t 2000 else t)])) ∧
    (response_sender_main cfgS stdinS resp { st with lastSent := k }).1
      = (response_sender_main cfgS stdinS resp st).1 := by
  refine ⟨?_, ?_, rfl⟩
  · intro s hs hkey
    subst hs
    simp [approver_prepublish, ht, hkey]
  · intro hne
    cases ls with
    | none => simp [approver_prepublish, ht]
    | some s => simp [approver_prepublish, ht, hne s rfl]

/-- C4, witness: with stored key `"hello"`, the approver's pre-publish of
the identical response publishes nothing and keeps the key. -/
theorem C4_witness :
    approver_prepublish (some "hello") (some "hello") = (some "hello", []) :=
  (C4_amended "hello" (some "hello") none none none stRunning none
      (by decide)).1 "hello" rfl (by decide)

/-! ## C5 — malformed and well-formed button-press payloads -/

/-- C5.  A button-press payload without a colon creates no file in the
callbacks directory while the cursor still advances past the event; a
payload with a colon writes the text after the first colon into the file
named by the text before it (an overwriting write), again advancing the
cursor. -/
theorem C5_payload_handling (chatId : String) (tmi : Option Nat) (st : Store)
    (uid : Nat) (c : Callback) (p : String) (hd : c.data = some p) :
    (splitFirstColon p = none →
       (bridge_step chatId tmi st ⟨uid, some c, none⟩).store.callbacks
           = st.callbacks ∧
       (bridge_step chatId tmi st ⟨uid, some c, none⟩).offset = uid + 1) ∧
    (∀ rid dec, splitFirstColon p = some (rid, dec) →
       (bridge_step chatId tmi st ⟨uid, some c, none⟩).store.callbacks
           = fsUpdate st.callbacks (responseFile rid) (some dec) ∧
       (bridge_step chatId tmi st ⟨uid, some c, none⟩).offset = uid + 1) := by
  constructor
  · intro h
    simp [bridge_step, handle_callback, hd, h]
  · intro rid dec h
    simp [bridge_step, handle_callback, hd, h]

/-- C5, witness: payload `"garbage"` is dropped with the cursor advanced
from update id 7 to 8. -/
theorem C5_witness :
    (bridge_step "123" none stRunning
        ⟨7, some ⟨"q1", some "garbage", "999"⟩, none⟩).store.callbacks
      = stRunning.callbacks ∧
    (bridge_step "123" none stRunning
        ⟨7, some ⟨"q1", some "garbage", "999"⟩, none⟩).offset = 8 :=
  (C5_payload_handling "123" none stRunning 7 ⟨"q1", some "garbage", "999"⟩
      "garbage" rfl).1 (by decide)

/-! ## C6 — transport failure on the prompt publish -/

/-- C6, counterexample.  The claim quotes the deny reason as
"Failed to send notification"; the code's reason is
"Failed to send Telegram notification". -/
theorem C6_counterexample :
    (approver_main (some cfgEmpty) (some hookBash) envNoSend stNoBridge).1.decision
      = some ⟨"deny", some "Failed to send Telegram notification"⟩ ∧
    (approver_main (some cfgEmpty) (some hookBash) envNoSend stNoBridge).1.decision
      ≠ some ⟨"deny", some "Failed to send notification"⟩ := by
  constructor <;> decide

/-- C6, amended.  When the prompt publish yields no message id and the tool
is in neither auto list, the service returns `deny` with reason
"Failed to send Telegram notification" and never enters the decision poll
(in particular it never returns `allow`). -/
theorem C6_amended (config : Config) (hi : HookInput) (env : ApproverEnv)
    (st : Store)
    (hA : hi.tool_name.getD "Unknown"
            ∉ config.auto_approve.getD ["Read", "Glob", "Grep"])
    (hD : hi.tool_name.getD "Unknown" ∉ config.auto_deny.getD [])
    (hM : env.promptMsgId = none) :
    (approver_main (some config) (some hi) env st).1.decision
      = some ⟨"deny", some "Failed to send Telegram notification"⟩ ∧
    (approver_main (some config) (some hi) env st).1.polled = false := by
  constructor <;> simp [approver_main, approver_core, hA, hD, hM]

/-- C6, witness at tool `Bash` with a failed prompt publish. -/
theorem C6_witness :
    (approver_main (some cfgEmpty) (some hookBash) envNoSend stNoBridge).1.decision
      = some ⟨"deny", some "Failed to send Telegram notification"⟩ ∧
    (approver_main (some cfgEmpty) (some hookBash) envNoSend stNoBridge).1.polled
      = false :=
  C6_amended cfgEmpty hookBash envNoSend stNoBridge (by decide) (by decide) rfl

/-! ## C7 — button presses are not sender-checked -/

/-- C7.  The relay loop's handling of a button-press event does not depend
on the sender identity carried by the event: two callback events identical
except for the sender id produce the same step result (hence the same
Decision Record write); the authorized-sender check applies only to text
messages, which are dropped without effect when the sender is not the
configured chat. -/
theorem C7_sender_blind_callbacks (chatId : String) (tmi : Option Nat)
    (st : Store) (uid : Nat) (m : Option Message) (c : Callback)
    (s₁ s₂ : String) (msg : Message) (hm : msg.fromId ≠ chatId) :
    bridge_step chatId tmi st ⟨uid, some { c with fromId := s₁ }, m⟩
      = bridge_step chatId tmi st ⟨uid, some { c with fromId := s₂ }, m⟩ ∧
    bridge_step chatId tmi st ⟨uid, none, some msg⟩
      = ⟨uid + 1, st, [], [], [], [], [], false⟩ := by
  constructor
  · rfl
  · rcases msg with ⟨mt, mf⟩
    cases mt with
    | none => rfl
    | some t => simp [bridge_step, hm]

/-- C7, witness: the same press from senders 111 and 222, and a text
message from unauthorized sender 999 dropped. -/
theorem C7_witness :
    bridge_step "1" none stRunning
        ⟨2, some ⟨"q1", some "ab12:allow", "111"⟩, none⟩
      = bridge_step "1" none stRunning
          ⟨2, some ⟨"q1", some "ab12:allow", "222"⟩, none⟩ ∧
    bridge_step "1" none stRunning ⟨2, none, some ⟨some "hi", "999"⟩⟩
      = ⟨3, stRunning, [], [], [], [], [], false⟩ :=
  C7_sender_blind_callbacks "1" none stRunning 2 none
      ⟨"q1", some "ab12:allow", "0"⟩ "111" "222" ⟨some "hi", "999"⟩ (by decide)

/-! ## C8 — Thinking Indicator deletion discipline -/

/-- C8, counterexample.  The claim says every operation creating a new
Thinking Indicator first attempts to delete a stale one, and in particular
the relay loop attempts this before publishing a new indicator when
forwarding a text message.  On the code, with a stale indicator for remote
message 42, forwarding a text publishes a new indicator and overwrites the
marker with the new id 7 while attempting no remote delete at all
(`telegram_bridge.py` contains no `deleteMessage` call). -/
theorem C8_counterexample :
    stStale.thinking = some "42" ∧
    (bridge_step "1" (some 7) stStale
        ⟨3, none, some ⟨some "hi", "1"⟩⟩).store.thinking = some "7" ∧
    (bridge_step "1" (some 7) stStale
        ⟨3, none, some ⟨some "hi", "1"⟩⟩).remoteDeleted = [] ∧
    (bridge_step "1" (some 7) stStale
        ⟨3, none, some ⟨some "hi", "1"⟩⟩).sent = ["💭 Thinking..."] := by
  refine ⟨rfl, ?_, ?_, ?_⟩ <;> decide

/-- C8, amended.  Stale-indicator deletion is attempted only by the hook
processes, never by the relay loop: the relay attempts no remote delete on
any step (it overwrites the local marker when forwarding text), while the
Approval Request Service on every run with readable config and input — and
the Response Publisher whenever it is about to publish a non-empty
response — apply `delete_thinking_message` to the stale marker (removing
the marker file and best-effort deleting the numbered remote message). -/
theorem C8_amended (chatId : String) (tmi : Option Nat) (st₁ : Store)
    (u : Update) (cfg : Config) (hi : HookInput) (env : ApproverEnv)
    (st₂ : Store) (tp r : String) (st₃ : Store)
    (hbr : st₃.bridgeRunning = true) (htp : tp ≠ "") (hr : pyStrip r ≠ "") :
    (bridge_step chatId tmi st₁ u).remoteDeleted = [] ∧
    (∀ c, (delete_thinking (some c)).1 = none) ∧
    (approver_main (some cfg) (some hi) env st₂).2.thinking
      = (delete_thinking st₂.thinking).1 ∧
    (approver_main (some cfg) (some hi) env st₂).1.remoteDeleted
      = (delete_thinking st₂.thinking).2 ∧
    (response_sender_main (some cfg) (some ⟨some tp⟩) (some r) st₃).2.thinking
      = (delete_thinking st₃.thinking).1 ∧
    (response_sender_main (some cfg) (some ⟨some tp⟩) (some r) st₃).1.remoteDeleted
      = (delete_thinking st₃.thinking).2 := by
  refine ⟨?_, fun c => rfl, ?_, ?_, ?_, ?_⟩
  · simp only [bridge_step]
    repeat' split
    all_goals rfl
  · simp only [approver_main, approver_core]
    repeat' split
    all_goals rfl
  · simp only [approver_main, approver_core]
    repeat' split
    all_goals rfl
  · simp [response_sender_main, response_sender_core, hbr, htp, hr]
  · simp [response_sender_main, response_sender_core, hbr, htp, hr]

/-- C8, witness: the approver run on a store with stale indicator 42 clears
the marker and attempts the remote delete of message 42. -/
theorem C8_witness :
    (approver_main (some cfgEmpty) (some hookBash) envNoSend stStale).2.thinking
      = none ∧
    (approver_main (some cfgEmpty) (some hookBash) envNoSend stStale).1.remoteDeleted
      = ["42"] := by
  have h := C8_amended "1" (some 7) stStale ⟨3, none, some ⟨some "hi", "1"⟩⟩
      cfgEmpty hookBash envNoSend stStale "/tmp/tr.jsonl" "hi" stRunning
      rfl (by decide) (by decide)
  exact ⟨by rw [h.2.2.1]; decide, by rw [h.2.2.2.1]; decide⟩

/-! ## C9 — hook process exit codes -/

/-- C9, counterexample.  The claim says missing configuration yields exit
code 2 for both hook processes; the Response Publisher's `load_config`
exits 0 when `config.json` is absent. -/
theorem C9_counterexample :
    (response_sender_main none (some ⟨some "/tmp/tr.jsonl"⟩) (some "hi")
        stRunning).1.exitCode = 0 ∧
    (response_sender_main none (some ⟨some "/tmp/tr.jsonl"⟩) (some "hi")
        stRunning).1.exitCode ≠ 2 := by
  constructor <;> decide

/-- C9, amended.  The Approval Request Service exits 2 on missing
configuration and 2 on unparseable stdin JSON, and 0 on every other run;
the Response Publisher exits 0 on every run, including missing
configuration and unparseable stdin JSON. -/
theorem C9_amended (cfg : Config) (hi : HookInput) (env env₁ env₂ : ApproverEnv)
    (st st₁ st₂ st₃ : Store) (stdinA : Option HookInput)
    (cfgS : Option Config) (stdinS : Option SenderInput)
    (resp : Option String) :
    (approver_main none stdinA env₁ st₁).1.exitCode = 2 ∧
    (approver_main (some cfg) none env₂ st₂).1.exitCode = 2 ∧
    (approver_main (some cfg) (some hi) env st).1.exitCode = 0 ∧
    (response_sender_main cfgS stdinS resp st₃).1.exitCode = 0 := by
  refine ⟨rfl, rfl, ?_, ?_⟩
  · simp only [approver_main, approver_core]
    repeat' split
    all_goals rfl
  · simp only [response_sender_main, response_sender_core]
    repeat' split
    all_goals rfl

/-! ## C10 — the /plan toggle involution -/

/-- C10.  For every initial persisted Plan-Mode Flag value, two consecutive
`/plan` commands from the authorized chat restore the flag (as the handler
reads it back, `content.strip() == "1"`) to its original persisted value,
and publish exactly two status notices whose texts differ (one reports ON,
the other OFF). -/
theorem C10_plan_toggle (chatId : String) (tmi₁ tmi₂ : Option Nat)
    (st : Store) (uid₁ uid₂ : Nat) :
    parse_plan (bridge_step chatId tmi₂
        (bridge_step chatId tmi₁ st ⟨uid₁, none, some ⟨some "/plan", chatId⟩⟩).store
        ⟨uid₂, none, some ⟨some "/plan", chatId⟩⟩).store.planFile
      = parse_plan st.planFile ∧
    (bridge_step chatId tmi₁ st
        ⟨uid₁, none, some ⟨some "/plan", chatId⟩⟩).sent.length = 1 ∧
    (bridge_step chatId tmi₂
        (bridge_step chatId tmi₁ st ⟨uid₁, none, some ⟨some "/plan", chatId⟩⟩).store
        ⟨uid₂, none, some ⟨some "/plan", chatId⟩⟩).sent.length = 1 ∧
    (bridge_step chatId tmi₁ st ⟨uid₁, none, some ⟨some "/plan", chatId⟩⟩).sent
      ≠ (bridge_step chatId tmi₂
          (bridge_step chatId tmi₁ st ⟨uid₁, none, some ⟨some "/plan", chatId⟩⟩).store
          ⟨uid₂, none, some ⟨some "/plan", chatId⟩⟩).sent := by
  rw [bridge_plan_step, bridge_plan_step]
  cases hb : parse_plan st.planFile <;>
    simp [parse_plan, pyStrip, bridge_plan_step, hb]
